import Mathlib

/-!
Verification of the nmlinkd daemon core (a NetworkManager-compatible D-Bus
bridge over rtnetlink).  This file shallowly embeds the pure parts of the
source — `src/mapping.rs`, `src/state.rs`, `src/netlink/queries.rs` and the
D-Bus property accessors of `src/nm/device.rs` and
`src/nm/active_connection.rs` — and proves the specified properties about
them.  Machine integers (`u32`, `u64`, `u8`) are embedded as `Nat` with
explicit `% 2 ^ w` wherever overflow matters; `HashMap<i32, DeviceInfo>` is
embedded as an association list `List (Int × DeviceInfo)`; Rust strings are
embedded as Lean `String`, with character-level helper functions standing in
for the `str` methods used by the source.
-/

set_option autoImplicit false

namespace Nmlinkd

/-! ## `src/mapping.rs`: NetworkManager enum constants -/

namespace nm_state

def DISCONNECTED : Nat := 20
def CONNECTED_LOCAL : Nat := 50
def CONNECTED_GLOBAL : Nat := 70

end nm_state

namespace nm_device_state

def UNKNOWN : Nat := 0
def UNAVAILABLE : Nat := 20
def DISCONNECTED : Nat := 30
def IP_CONFIG : Nat := 70
def ACTIVATED : Nat := 100

end nm_device_state

namespace nm_connectivity

def UNKNOWN : Nat := 0
def NONE : Nat := 1
def FULL : Nat := 4

end nm_connectivity

namespace nm_active_connection_state

def UNKNOWN : Nat := 0
def ACTIVATED : Nat := 2
def DEACTIVATED : Nat := 4

end nm_active_connection_state

namespace netlink_flags

def IFF_UP : Nat := 0x1
def IFF_RUNNING : Nat := 0x40
def IFF_LOWER_UP : Nat := 0x10000
def IFF_DORMANT : Nat := 0x20000

end netlink_flags

/-! ## `src/state.rs`: the data model -/

/-- `AddrInfo<A>` from `src/state.rs`: one address with its prefix length.
IPv4/IPv6 address payloads are embedded as `Nat`; only the list structure
matters for the verified claims. -/
structure AddrInfo (A : Type) where
  address : A
  prefix_len : Nat
deriving DecidableEq, Repr

/-- `Ipv4Addr` embedded as a 32-bit value. -/
abbrev Ipv4Addr := Nat

/-- `Ipv6Addr` embedded as a 128-bit value. -/
abbrev Ipv6Addr := Nat

/-- `DeviceInfo` from `src/state.rs`. -/
structure DeviceInfo where
  ifindex : Int
  name : String
  nm_state : Nat
  hw_address : String
  ipv4_addrs : List (AddrInfo Ipv4Addr)
  ipv6_addrs : List (AddrInfo Ipv6Addr)
  gateway4 : Option Ipv4Addr
  gateway6 : Option Ipv6Addr
deriving DecidableEq, Repr

/-- `DeviceInfo::new` from `src/state.rs`. -/
def DeviceInfo.new (ifindex : Int) (name : String) : DeviceInfo where
  ifindex := ifindex
  name := name
  nm_state := nm_device_state.UNKNOWN
  hw_address := ""
  ipv4_addrs := []
  ipv6_addrs := []
  gateway4 := none
  gateway6 := none

/-- `DeviceInfo::has_ip_address` from `src/state.rs`. -/
def DeviceInfo.has_ip_address (d : DeviceInfo) : Bool :=
  !d.ipv4_addrs.isEmpty || !d.ipv6_addrs.isEmpty

/-- `AppState` from `src/state.rs`.  The `devices` hash map is embedded as an
association list; the `netlink_handle` capability is I/O-only and omitted. -/
structure AppState where
  global_state : Nat
  connectivity : Nat
  devices : List (Int × DeviceInfo)
  nameservers : List String
deriving DecidableEq, Repr

/-! ## `src/mapping.rs`: the pure mapping functions -/

/-- The loop body of `deduce_global_state`, with the `has_local` flag as an
accumulator; an early `return CONNECTED_GLOBAL` happens at the first device
that has an IP and a gateway. -/
def deduce_global_state_go : List DeviceInfo → Bool → Nat
  | [], has_local =>
      if has_local then nm_state.CONNECTED_LOCAL else nm_state.DISCONNECTED
  | dev :: rest, has_local =>
      let has_ip := !dev.ipv4_addrs.isEmpty || !dev.ipv6_addrs.isEmpty
      if has_ip then
        if dev.gateway4.isSome || dev.gateway6.isSome then
          nm_state.CONNECTED_GLOBAL
        else
          deduce_global_state_go rest true
      else
        deduce_global_state_go rest has_local

/-- `deduce_global_state` from `src/mapping.rs`: iterate `devices.values()`
with a `has_local` flag, returning early on the first device that has both an
IP and a default gateway. -/
def deduce_global_state (devices : List (Int × DeviceInfo)) : Nat :=
  deduce_global_state_go (devices.map Prod.snd) false

/-- `global_state_to_connectivity` from `src/mapping.rs`:
`50..=70 → FULL`, `20 → NONE`, `_ → UNKNOWN`. -/
def global_state_to_connectivity (global_state : Nat) : Nat :=
  if nm_state.CONNECTED_LOCAL ≤ global_state ∧ global_state ≤ nm_state.CONNECTED_GLOBAL then
    nm_connectivity.FULL
  else if global_state = nm_state.DISCONNECTED then
    nm_connectivity.NONE
  else
    nm_connectivity.UNKNOWN

/-- `netlink_flags_to_nm_device` from `src/mapping.rs`. -/
def netlink_flags_to_nm_device (flags : Nat) (has_ipv4 has_ipv6 : Bool) : Nat :=
  let is_up := flags &&& netlink_flags.IFF_UP ≠ 0
  let is_running := flags &&& netlink_flags.IFF_RUNNING ≠ 0
  let is_lower_up := flags &&& netlink_flags.IFF_LOWER_UP ≠ 0
  let is_dormant := flags &&& netlink_flags.IFF_DORMANT ≠ 0
  if ¬ is_up then
    nm_device_state.DISCONNECTED
  else if is_dormant then
    nm_device_state.UNAVAILABLE
  else
    let has_carrier := is_running ∨ is_lower_up
    let has_ip := has_ipv4 || has_ipv6
    if ¬ has_carrier then nm_device_state.UNAVAILABLE
    else if ¬ has_ip then nm_device_state.IP_CONFIG
    else nm_device_state.ACTIVATED

/-- `AppState::recompute_global_state` from `src/state.rs`: derive
`global_state` from `devices`, then `connectivity` from the new
`global_state`. -/
def AppState.recompute_global_state (st : AppState) : AppState :=
  let g := deduce_global_state st.devices
  { st with global_state := g, connectivity := global_state_to_connectivity g }

/-! ## `src/state.rs`: the state-transition helpers on `DeviceInfo`

The Rust methods mutate `self` and return an `Option<(u32, u32)>`; the
embedding returns the pair (return value, updated device). -/

/-- `DeviceInfo::update_state_on_ip_change` from `src/state.rs`. -/
def DeviceInfo.update_state_on_ip_change (d : DeviceInfo) :
    Option (Nat × Nat) × DeviceInfo :=
  let old_state := d.nm_state
  if old_state < nm_device_state.IP_CONFIG then
    (none, d)
  else
    let has_ip := d.has_ip_address
    let new_state :=
      if has_ip then nm_device_state.ACTIVATED else nm_device_state.IP_CONFIG
    if old_state ≠ new_state then
      (some (new_state, old_state), { d with nm_state := new_state })
    else
      (none, d)

/-- `DeviceInfo::update_state_on_link_change` from `src/state.rs`. -/
def DeviceInfo.update_state_on_link_change (d : DeviceInfo) (flags : Nat) :
    Option (Nat × Nat) × DeviceInfo :=
  let old_state := d.nm_state
  let has_ipv4 := !d.ipv4_addrs.isEmpty
  let has_ipv6 := !d.ipv6_addrs.isEmpty
  let new_state := netlink_flags_to_nm_device flags has_ipv4 has_ipv6
  if old_state ≠ new_state then
    let d' := { d with nm_state := new_state }
    let d' :=
      if new_state = nm_device_state.DISCONNECTED ∨
          new_state = nm_device_state.UNAVAILABLE then
        { d' with gateway4 := none, gateway6 := none }
      else
        d'
    (some (new_state, old_state), d')
  else
    (none, d)

/-! ## Character-level string helpers

These stand in for the `str` methods used by the source
(`lines`, `trim`, `split_whitespace`, `starts_with`, `split`, `join`),
implemented by structural recursion over `List Char`. -/

/-- Split a character list at every occurrence of `sep`
(the semantics of Rust's `str::split(sep)`): always at least one group,
and `n` separators produce `n + 1` groups. -/
def splitOnChar (sep : Char) : List Char → List (List Char)
  | [] => [[]]
  | c :: cs =>
      if c = sep then [] :: splitOnChar sep cs
      else
        match splitOnChar sep cs with
        | [] => [[c]]
        | g :: gs => (c :: g) :: gs

/-- Join groups with a separator (the semantics of `[String]::join(sep)`). -/
def joinSep (sep : List Char) : List (List Char) → List Char
  | [] => []
  | [g] => g
  | g :: gs => g ++ sep ++ joinSep sep gs

/-- `str::trim`: drop leading and trailing whitespace. -/
def trimL (l : List Char) : List Char :=
  ((l.dropWhile Char.isWhitespace).reverse.dropWhile Char.isWhitespace).reverse

/-- Worker for `splitWhitespaceL`, accumulating the current word reversed. -/
def splitWhitespaceGo : List Char → List Char → List (List Char)
  | [], acc => if acc.isEmpty then [] else [acc.reverse]
  | c :: cs, acc =>
      if c.isWhitespace then
        if acc.isEmpty then splitWhitespaceGo cs []
        else acc.reverse :: splitWhitespaceGo cs []
      else splitWhitespaceGo cs (c :: acc)

/-- `str::split_whitespace`: the maximal non-whitespace runs, in order. -/
def splitWhitespaceL (l : List Char) : List (List Char) :=
  splitWhitespaceGo l []

/-- `str::starts_with(pat)`. -/
def startsWithL : List Char → List Char → Bool
  | [], _ => true
  | _ :: _, [] => false
  | p :: ps, c :: cs => p = c && startsWithL ps cs

/-- Strip one trailing carriage return, as `str::lines` does per line. -/
def stripTrailingCR (l : List Char) : List Char :=
  if l.getLast? = some '\r' then l.dropLast else l

/-- `str::lines`: split on `'\n'`, drop a final empty line produced by a
trailing newline, and strip one trailing `'\r'` from each line. -/
def rustLines (l : List Char) : List (List Char) :=
  let parts := splitOnChar '\n' l
  let parts := if parts.getLast? = some [] then parts.dropLast else parts
  parts.map stripTrailingCR

/-! ## `src/netlink/queries.rs`: `format_mac` and `reload_nameservers` -/

/-- One uppercase hexadecimal digit (`0`–`9`, `A`–`F`). -/
def hexDigitU (d : Nat) : Char :=
  if d < 10 then Char.ofNat (48 + d) else Char.ofNat (55 + d)

/-- One lowercase hexadecimal digit (`0`–`9`, `a`–`f`). -/
def hexDigitL (d : Nat) : Char :=
  if d < 10 then Char.ofNat (48 + d) else Char.ofNat (87 + d)

/-- Fixed-width uppercase hexadecimal rendering: the semantics of Rust's
`{:0wX}` for values `v < 16 ^ w` (most significant digit first). -/
def hexFixedU (w v : Nat) : List Char :=
  (List.range w).reverse.map fun i => hexDigitU (v / 16 ^ i % 16)

/-- Fixed-width lowercase hexadecimal rendering: the semantics of Rust's
`{:0wx}` for values `v < 16 ^ w` (most significant digit first). -/
def hexFixedL (w v : Nat) : List Char :=
  (List.range w).reverse.map fun i => hexDigitL (v / 16 ^ i % 16)

/-- `format_mac` from `src/netlink/queries.rs`: each byte as `{:02X}`, the
groups joined with `":"`.  Bytes are `u8`, embedded as `Nat < 256`. -/
def format_mac (bytes : List Nat) : String :=
  String.mk (joinSep [':'] (bytes.map fun b => hexFixedU 2 b))

/-- Spec-side hex-digit value (`0`–`9`, `a`–`f`, `A`–`F`), used to state that
`format_mac` is a left-inverse of hex-byte parsing. -/
def hexVal (c : Char) : Option Nat :=
  if 48 ≤ c.toNat ∧ c.toNat ≤ 57 then some (c.toNat - 48)
  else if 97 ≤ c.toNat ∧ c.toNat ≤ 102 then some (c.toNat - 87)
  else if 65 ≤ c.toNat ∧ c.toNat ≤ 70 then some (c.toNat - 55)
  else none

/-- Accumulating worker of the spec-side hex-byte parse. -/
def parseHexGo : List Char → Nat → Option Nat
  | [], acc => some acc
  | c :: cs, acc =>
      match hexVal c with
      | some d => parseHexGo cs (acc * 16 + d)
      | none => none

/-- Spec-side parse of one group as a hexadecimal byte: non-empty, all hex
digits, value below 256 (the semantics of `u8::from_str_radix(_, 16)`). -/
def parseHexByte (g : List Char) : Option Nat :=
  match g with
  | [] => none
  | _ =>
      match parseHexGo g 0 with
      | some v => if v < 256 then some v else none
      | none => none

/-- Spec-side parse of every group of a byte list. -/
def parseGroups : List (List Char) → Option (List Nat)
  | [] => some []
  | g :: gs =>
      match parseHexByte g, parseGroups gs with
      | some b, some bs => some (b :: bs)
      | _, _ => none

/-- Spec-side MAC parse: split the string at `':'` and parse every group as a
hexadecimal byte. -/
def parse_mac (s : String) : Option (List Nat) :=
  parseGroups (splitOnChar ':' s.data)

/-- The single-line step of the nameserver parse in `reload_nameservers`:
trim the line; if it starts with `"nameserver"`, yield the second
whitespace-separated token (`split_whitespace().nth(1)`). -/
def nameserverOfLine (line : List Char) : Option (List Char) :=
  let l := trimL line
  if startsWithL "nameserver".data l then (splitWhitespaceL l)[1]? else none

/-- The parse inside `reload_nameservers` (`src/netlink/queries.rs`,
lines 207–217), applied to one file's contents. -/
def parse_resolv (contents : String) : List String :=
  ((rustLines contents.data).filterMap nameserverOfLine).map String.mk

/-- `reload_nameservers` from `src/netlink/queries.rs`.  The filesystem is
embedded as the list of candidate reads in order
(`/run/systemd/resolve/resolv.conf`, then `/etc/resolv.conf`); `none` is an
unreadable file.  The first file whose parse is non-empty is stored; when no
file qualifies the loop falls through without touching the state. -/
def reload_nameservers (files : List (Option String)) (st : AppState) : AppState :=
  match files with
  | [] => st
  | f :: rest =>
      match f with
      | some contents =>
          let servers := parse_resolv contents
          if ¬ servers.isEmpty then { st with nameservers := servers }
          else reload_nameservers rest st
      | none => reload_nameservers rest st

/-! ## `connection_uuid` (`src/state.rs`)

`connection_uuid` feeds the interface name into two
`std::collections::hash_map::DefaultHasher`s seeded with the constants
`"nmlinkd"` / `"nmlinkd2"`.  `DefaultHasher` is Rust standard-library code
(not part of this repository); it is modelled bit-exactly here: SipHash-1-3
with both keys zero, where hashing a `&str` writes its UTF-8 bytes followed
by a `0xff` delimiter.  All 64-bit arithmetic is `Nat` with explicit
wrapping. -/

/-- Truncate to 64 bits (`u64` wrapping semantics). -/
def wrap64 (x : Nat) : Nat := x % 2 ^ 64

/-- `u64::rotate_left`. -/
def rotl64 (x n : Nat) : Nat :=
  wrap64 ((x <<< n) ||| (x >>> (64 - n)))

/-- The four 64-bit lanes of the SipHash state. -/
structure SipState where
  v0 : Nat
  v1 : Nat
  v2 : Nat
  v3 : Nat

/-- One SipHash round. -/
def sipRound (s : SipState) : SipState :=
  let v0 := wrap64 (s.v0 + s.v1)
  let v1 := rotl64 s.v1 13
  let v1 := wrap64 (v1 ^^^ v0)
  let v0 := rotl64 v0 32
  let v2 := wrap64 (s.v2 + s.v3)
  let v3 := rotl64 s.v3 16
  let v3 := wrap64 (v3 ^^^ v2)
  let v0 := wrap64 (v0 + v3)
  let v3 := rotl64 v3 21
  let v3 := wrap64 (v3 ^^^ v0)
  let v2 := wrap64 (v2 + v1)
  let v1 := rotl64 v1 17
  let v1 := wrap64 (v1 ^^^ v2)
  let v2 := rotl64 v2 32
  ⟨v0, v1, v2, v3⟩

/-- Absorb one 64-bit message word with the single compression round of
SipHash-1-3: `v3 ^= m`, one round, `v0 ^= m`. -/
def sipCompress (s : SipState) (m : Nat) : SipState :=
  let s := { s with v3 := wrap64 (s.v3 ^^^ m) }
  let s := sipRound s
  { s with v0 := wrap64 (s.v0 ^^^ m) }

/-- Little-endian value of a byte list (missing high bytes are zero), the
semantics of `u64::from_le_bytes` and of SipHash's message-word load. -/
def leWord (bytes : List Nat) : Nat :=
  bytes.foldr (fun b acc => b + 256 * acc) 0

/-- Cut a byte stream into full 8-byte little-endian words plus the tail of
fewer than 8 bytes. -/
def sipBlocks : List Nat → List Nat × List Nat
  | b0 :: b1 :: b2 :: b3 :: b4 :: b5 :: b6 :: b7 :: rest =>
      let (ws, tail) := sipBlocks rest
      (leWord [b0, b1, b2, b3, b4, b5, b6, b7] :: ws, tail)
  | bs => ([], bs)

/-- SipHash-1-3 with keys `k0 = k1 = 0` over a byte stream: the algorithm of
`DefaultHasher` (`std::hash::SipHasher13`). -/
def siphash13 (msg : List Nat) : Nat :=
  let (ws, tail) := sipBlocks msg
  let s : SipState :=
    ⟨0x736f6d6570736575, 0x646f72616e646f6d, 0x6c7967656e657261, 0x7465646279746573⟩
  let s := ws.foldl sipCompress s
  let b := wrap64 (((msg.length % 256) <<< 56) ||| leWord tail)
  let s := sipCompress s b
  let s := { s with v2 := wrap64 (s.v2 ^^^ 0xff) }
  let s := sipRound (sipRound (sipRound s))
  wrap64 (s.v0 ^^^ s.v1 ^^^ s.v2 ^^^ s.v3)

/-- UTF-8 encoding of one character. -/
def utf8EncodeChar (c : Char) : List Nat :=
  let n := c.toNat
  if n < 0x80 then [n]
  else if n < 0x800 then
    [0xC0 ||| (n >>> 6), 0x80 ||| (n &&& 0x3F)]
  else if n < 0x10000 then
    [0xE0 ||| (n >>> 12), 0x80 ||| ((n >>> 6) &&& 0x3F), 0x80 ||| (n &&& 0x3F)]
  else
    [0xF0 ||| (n >>> 18), 0x80 ||| ((n >>> 12) &&& 0x3F),
     0x80 ||| ((n >>> 6) &&& 0x3F), 0x80 ||| (n &&& 0x3F)]

/-- UTF-8 bytes of a string (`str::as_bytes`). -/
def utf8Bytes (s : String) : List Nat :=
  s.data.flatMap utf8EncodeChar

/-- The byte stream a `DefaultHasher` sees in `connection_uuid`:
`seed.hash(&mut h); name.hash(&mut h)`, each `&str` hash writing the UTF-8
bytes followed by the `0xff` delimiter. -/
def hashStream (seed name : String) : List Nat :=
  utf8Bytes seed ++ [0xff] ++ utf8Bytes name ++ [0xff]

/-- One of the two seeded 64-bit hashes used by `connection_uuid`
(`DefaultHasher::finish` after hashing `seed` then `name`). -/
def seededHash (seed name : String) : Nat :=
  siphash13 (hashStream seed name)

/-- `u64::to_le_bytes`. -/
def toLeBytes8 (x : Nat) : List Nat :=
  [x % 256, x / 256 % 256, x / 256 ^ 2 % 256, x / 256 ^ 3 % 256,
   x / 256 ^ 4 % 256, x / 256 ^ 5 % 256, x / 256 ^ 6 % 256, x / 256 ^ 7 % 256]

/-- `connection_uuid` from `src/state.rs`: 16 bytes as the little-endian
concatenation of the two seeded hashes, formatted
`{:08x}-{:04x}-{:04x}-{:04x}-{:012x}` over `u32`/`u16`/`u16`/`u16`/`u64`
reads of those bytes (the final `u64` read pads the two missing high bytes
with zero). -/
def connection_uuid (iface_name : String) : String :=
  let hash1 := seededHash "nmlinkd" iface_name
  let hash2 := seededHash "nmlinkd2" iface_name
  let bytes := toLeBytes8 hash1 ++ toLeBytes8 hash2
  let g1 := leWord (bytes.take 4)
  let g2 := leWord ((bytes.drop 4).take 2)
  let g3 := leWord ((bytes.drop 6).take 2)
  let g4 := leWord ((bytes.drop 8).take 2)
  let g5 := leWord (((bytes.drop 10).take 6) ++ [0, 0])
  String.mk (joinSep ['-']
    [hexFixedL 8 g1, hexFixedL 4 g2, hexFixedL 4 g3, hexFixedL 4 g4, hexFixedL 12 g5])

/-! ## `src/state.rs` / `src/nm/*.rs`: read-side accessors

`SharedStateExt::with_device` acquires a read lock and maps over the looked-up
device; the lock is irrelevant to the embedded value semantics. -/

/-- `SharedStateExt::with_device` from `src/state.rs`. -/
def with_device {α : Type} (st : AppState) (ifindex : Int) (f : DeviceInfo → α) :
    Option α :=
  (st.devices.lookup ifindex).map f

/-- The `State` property of `NmDevice` (`src/nm/device.rs`):
`with_device(..).unwrap_or(0)`. -/
def NmDevice.state_property (st : AppState) (ifindex : Int) : Nat :=
  (with_device st ifindex fun d => d.nm_state).getD 0

/-- The `HwAddress` property of `NmDevice` (`src/nm/device.rs`):
`with_device(..).unwrap_or_default()`. -/
def NmDevice.hw_address_property (st : AppState) (ifindex : Int) : String :=
  (with_device st ifindex fun d => d.hw_address).getD ""

/-- The `Interface` property of `NmDevice` (`src/nm/device.rs`):
`with_device(..).unwrap_or_default()`. -/
def NmDevice.interface_property (st : AppState) (ifindex : Int) : String :=
  (with_device st ifindex fun d => d.name).getD ""

/-- The `State` property of `NmActiveConnection`
(`src/nm/active_connection.rs`): Activated (2) when the device state is at
least `ACTIVATED`, Deactivated (4) otherwise, Unknown (0) when the device is
absent. -/
def NmActiveConnection.state_property (st : AppState) (ifindex : Int) : Nat :=
  (with_device st ifindex fun d =>
    if nm_device_state.ACTIVATED ≤ d.nm_state then
      nm_active_connection_state.ACTIVATED
    else
      nm_active_connection_state.DEACTIVATED).getD nm_active_connection_state.UNKNOWN

/-! ## Spec-side character classes and the canonical UUID layout -/

/-- Uppercase-hex character class (`0`–`9`, `A`–`F`). -/
def isUpperHexDigit (c : Char) : Bool :=
  (48 ≤ c.toNat && c.toNat ≤ 57) || (65 ≤ c.toNat && c.toNat ≤ 70)

/-- Lowercase-hex character class (`0`–`9`, `a`–`f`). -/
def isLowerHexDigit (c : Char) : Bool :=
  (48 ≤ c.toNat && c.toNat ≤ 57) || (97 ≤ c.toNat && c.toNat ≤ 102)

/-- The canonical 8-4-4-4-12 hexadecimal UUID layout: splitting at `'-'`
yields exactly five groups of those lengths, all lowercase hex digits. -/
def uuidShape (l : List Char) : Bool :=
  match splitOnChar '-' l with
  | [a, b, c, d, e] =>
      a.length == 8 && b.length == 4 && c.length == 4 && d.length == 4 &&
        e.length == 12 && (a ++ b ++ c ++ d ++ e).all isLowerHexDigit
  | _ => false

/-! ## Theorems -/

/-- The loop of `deduce_global_state`, characterized: 70 as soon as some
device has an IP and a gateway; else 50 when the flag is set or some device
has an IP; else 20. -/
theorem deduce_global_state_go_spec (l : List DeviceInfo) (b : Bool) :
    deduce_global_state_go l b =
      if l.any fun d => d.has_ip_address && (d.gateway4.isSome || d.gateway6.isSome) then
        70
      else if b || l.any fun d => d.has_ip_address then 50
      else 20 := by
  induction l generalizing b with
  | nil =>
      cases b <;>
        simp [deduce_global_state_go, nm_state.CONNECTED_LOCAL, nm_state.DISCONNECTED]
  | cons d rest ih =>
      simp only [DeviceInfo.has_ip_address] at ih ⊢
      simp only [deduce_global_state_go, List.any_cons, nm_state.CONNECTED_GLOBAL]
      rcases Bool.eq_false_or_eq_true (!d.ipv4_addrs.isEmpty || !d.ipv6_addrs.isEmpty) with
        hip | hip
      · rcases Bool.eq_false_or_eq_true (d.gateway4.isSome || d.gateway6.isSome) with
          hgw | hgw
        · simp [hip, hgw, -List.any_eq_true]
        · simp [hip, hgw, ih, -List.any_eq_true]
      · simp [hip, ih, -List.any_eq_true]

/-- C1: `netlink_flags_to_nm_device` follows the specified decision order:
Disconnected (30) when `IFF_UP` is clear; else Unavailable (20) when
`IFF_DORMANT` is set; else, with carrier = `IFF_RUNNING || IFF_LOWER_UP`,
Unavailable (20) without carrier, IpConfig (70) with carrier and no IP,
Activated (100) with carrier and any IP. -/
theorem C1_netlink_flags_to_nm_device_spec (flags : Nat) (has_ipv4 has_ipv6 : Bool) :
    netlink_flags_to_nm_device flags has_ipv4 has_ipv6 =
      if flags &&& 0x1 = 0 then 30
      else if flags &&& 0x20000 ≠ 0 then 20
      else if flags &&& 0x40 ≠ 0 ∨ flags &&& 0x10000 ≠ 0 then
        if has_ipv4 = true ∨ has_ipv6 = true then 100 else 70
      else 20 := by
  simp only [netlink_flags_to_nm_device, netlink_flags.IFF_UP, netlink_flags.IFF_RUNNING,
    netlink_flags.IFF_LOWER_UP, netlink_flags.IFF_DORMANT, nm_device_state.DISCONNECTED,
    nm_device_state.UNAVAILABLE, nm_device_state.IP_CONFIG, nm_device_state.ACTIVATED]
  split_ifs <;> simp_all

/-- C2: `deduce_global_state` returns ConnectedGlobal (70) iff some device
has an IP and a gateway, else ConnectedLocal (50) iff some device has an IP,
else Disconnected (20). -/
theorem C2_deduce_global_state_spec (devices : List (Int × DeviceInfo)) :
    deduce_global_state devices =
      if devices.any fun p =>
          p.2.has_ip_address && (p.2.gateway4.isSome || p.2.gateway6.isSome) then 70
      else if devices.any fun p => p.2.has_ip_address then 50
      else 20 := by
  unfold deduce_global_state
  rw [deduce_global_state_go_spec]
  have h1 : ((devices.map Prod.snd).any fun d =>
      d.has_ip_address && (d.gateway4.isSome || d.gateway6.isSome)) =
      (devices.any fun p =>
        p.2.has_ip_address && (p.2.gateway4.isSome || p.2.gateway6.isSome)) := by
    induction devices with
    | nil => rfl
    | cons p rest ih => simp [ih, -List.any_eq_true]
  have h2 : ((devices.map Prod.snd).any fun d => d.has_ip_address) =
      (devices.any fun p => p.2.has_ip_address) := by
    clear h1
    induction devices with
    | nil => rfl
    | cons p rest ih => simp [ih, -List.any_eq_true]
  rw [h1, h2, Bool.false_or]

/-- C9: after `recompute_global_state`, the stored global state is one of
Disconnected (20), ConnectedLocal (50), ConnectedGlobal (70), and the stored
connectivity is None (1) or Full (4) — Unknown (0) is never produced. -/
theorem C9_recompute_global_state_range (st : AppState) :
    ((st.recompute_global_state).global_state = 20 ∨
      (st.recompute_global_state).global_state = 50 ∨
      (st.recompute_global_state).global_state = 70) ∧
    ((st.recompute_global_state).connectivity = 1 ∨
      (st.recompute_global_state).connectivity = 4) := by
  have h : deduce_global_state st.devices = 20 ∨
      deduce_global_state st.devices = 50 ∨
      deduce_global_state st.devices = 70 := by
    unfold deduce_global_state
    rw [deduce_global_state_go_spec]
    split_ifs <;> simp
  rcases h with h | h | h <;>
    simp [AppState.recompute_global_state, global_state_to_connectivity, h,
      nm_state.CONNECTED_LOCAL, nm_state.CONNECTED_GLOBAL, nm_state.DISCONNECTED,
      nm_connectivity.FULL, nm_connectivity.NONE]

/-- C3: an IP change never touches a device whose state is below
IpConfig (70) — `update_state_on_ip_change` returns `None` and leaves the
device unchanged; at or above IpConfig it moves the state to Activated (100)
with any IPv4/IPv6 address and to IpConfig (70) without, reporting
`(new, old)` exactly when the state changed. -/
theorem C3_update_state_on_ip_change_spec (d : DeviceInfo) :
    (d.nm_state < 70 → d.update_state_on_ip_change = (none, d)) ∧
    (70 ≤ d.nm_state →
      d.update_state_on_ip_change.2 =
        { d with nm_state := if d.has_ip_address then 100 else 70 } ∧
      d.update_state_on_ip_change.1 =
        if (if d.has_ip_address then 100 else 70) = d.nm_state then none
        else some (if d.has_ip_address then 100 else 70, d.nm_state)) := by
  constructor
  · intro h
    simp [DeviceInfo.update_state_on_ip_change, nm_device_state.IP_CONFIG, h]
  · intro h
    have h' : ¬ d.nm_state < 70 := by omega
    simp only [DeviceInfo.update_state_on_ip_change, nm_device_state.IP_CONFIG,
      nm_device_state.ACTIVATED, if_neg h']
    generalize (if d.has_ip_address = true then (100 : Nat) else 70) = new
    by_cases he : d.nm_state = new
    · rw [if_neg (not_not_intro he)]
      refine ⟨?_, ?_⟩
      · rw [← he]
      · rw [if_pos he.symm]
    · rw [if_pos he]
      exact ⟨rfl, by rw [if_neg fun hh => he hh.symm]⟩

/-- Witness for C3: a device at Disconnected (30) is untouched by an IP
change; a device at IpConfig (70) that gained an address transitions to
Activated (100). -/
theorem C3_update_state_on_ip_change_witness :
    DeviceInfo.update_state_on_ip_change ⟨1, "eth0", 30, "", [], [], none, none⟩ =
      (none, ⟨1, "eth0", 30, "", [], [], none, none⟩) ∧
    (DeviceInfo.update_state_on_ip_change
        ⟨2, "eth1", 70, "", [⟨1, 24⟩], [], none, none⟩).1 = some (100, 70) := by
  constructor
  · exact (C3_update_state_on_ip_change_spec
      ⟨1, "eth0", 30, "", [], [], none, none⟩).1 (by decide)
  · have h := (C3_update_state_on_ip_change_spec
      ⟨2, "eth1", 70, "", [⟨1, 24⟩], [], none, none⟩).2 (by decide)
    simpa using h.2

/-- C4: whenever `update_state_on_link_change` reports a transition whose new
state is Disconnected (30) or Unavailable (20), the resulting device has both
gateways cleared; and when the state computed from the flags equals the
current state, the call returns `None` and leaves the device unchanged. -/
theorem C4_update_state_on_link_change_spec (d : DeviceInfo) (flags : Nat) :
    (∀ p d', d.update_state_on_link_change flags = (some p, d') →
      p.1 = 30 ∨ p.1 = 20 → d'.gateway4 = none ∧ d'.gateway6 = none) ∧
    (netlink_flags_to_nm_device flags (!d.ipv4_addrs.isEmpty) (!d.ipv6_addrs.isEmpty) =
        d.nm_state →
      d.update_state_on_link_change flags = (none, d)) := by
  constructor
  · intro p d' heq hnew
    simp only [DeviceInfo.update_state_on_link_change, nm_device_state.DISCONNECTED,
      nm_device_state.UNAVAILABLE] at heq
    split at heq
    · simp only [Prod.mk.injEq, Option.some.injEq] at heq
      obtain ⟨hp, hd⟩ := heq
      subst hp
      subst hd
      simp only at hnew
      rw [if_pos hnew]
      exact ⟨rfl, rfl⟩
    · simp at heq
  · intro h
    simp [DeviceInfo.update_state_on_link_change, h]

/-- Witness for C4: dropping `IFF_UP` on an Activated device with both
gateways set clears them; flags that reproduce the current state leave the
device untouched. -/
theorem C4_update_state_on_link_change_witness :
    ((DeviceInfo.update_state_on_link_change
        ⟨3, "eth2", 100, "", [], [], some 5, some 7⟩ 0).2.gateway4 = none ∧
      (DeviceInfo.update_state_on_link_change
        ⟨3, "eth2", 100, "", [], [], some 5, some 7⟩ 0).2.gateway6 = none) ∧
    DeviceInfo.update_state_on_link_change ⟨4, "eth3", 70, "", [], [], none, none⟩ 0x41 =
      (none, ⟨4, "eth3", 70, "", [], [], none, none⟩) := by
  constructor
  · have h := (C4_update_state_on_link_change_spec
      ⟨3, "eth2", 100, "", [], [], some 5, some 7⟩ 0).1 (30, 100)
      ⟨3, "eth2", 30, "", [], [], none, none⟩ (by decide) (by decide)
    have e : DeviceInfo.update_state_on_link_change
        ⟨3, "eth2", 100, "", [], [], some 5, some 7⟩ 0 =
        (some (30, 100), ⟨3, "eth2", 30, "", [], [], none, none⟩) := by decide
    rw [e]
    exact h
  · exact (C4_update_state_on_link_change_spec
      ⟨4, "eth3", 70, "", [], [], none, none⟩ 0x41).2 (by decide)

/-- C10: for an ifindex absent from the devices map, the public accessors
return the declared defaults instead of failing: `with_device` is `none`, the
Device `State` property is 0 (Unknown), the ActiveConnection `State` property
is 0 (Unknown), and `HwAddress` / `Interface` are the empty string. -/
theorem C10_absent_device_defaults (st : AppState) (ifindex : Int)
    (h : st.devices.lookup ifindex = none) :
    (∀ (α : Type) (f : DeviceInfo → α), with_device st ifindex f = none) ∧
    NmDevice.state_property st ifindex = 0 ∧
    NmActiveConnection.state_property st ifindex = 0 ∧
    NmDevice.hw_address_property st ifindex = "" ∧
    NmDevice.interface_property st ifindex = "" := by
  have hw : ∀ (α : Type) (f : DeviceInfo → α), with_device st ifindex f = none := by
    intro α f
    simp [with_device, h]
  refine ⟨hw, ?_, ?_, ?_, ?_⟩ <;>
    simp [NmDevice.state_property, NmActiveConnection.state_property,
      NmDevice.hw_address_property, NmDevice.interface_property, hw,
      nm_active_connection_state.UNKNOWN]

/-- Witness for C10: an empty device table queried at ifindex 5. -/
theorem C10_absent_device_defaults_witness :
    NmDevice.state_property ⟨20, 1, [], []⟩ 5 = 0 ∧
    NmActiveConnection.state_property ⟨20, 1, [], []⟩ 5 = 0 ∧
    NmDevice.hw_address_property ⟨20, 1, [], []⟩ 5 = "" ∧
    NmDevice.interface_property ⟨20, 1, [], []⟩ 5 = "" ∧
    with_device ⟨20, 1, [], []⟩ 5 (fun d => d.nm_state) = none := by
  have h := C10_absent_device_defaults ⟨20, 1, [], []⟩ 5 rfl
  exact ⟨h.2.1, h.2.2.1, h.2.2.2.1, h.2.2.2.2, h.1 _ _⟩

/-- C6: the nameserver reload stores the parse of the first candidate file —
in candidate order — whose parse is non-empty; the parse takes, from each
trimmed line starting with `nameserver`, the token after `nameserver`, in
file order. -/
theorem C6_reload_nameservers_first_match (f1 f2 : Option String) (st : AppState) :
    (∀ c1, f1 = some c1 → ¬ (parse_resolv c1).isEmpty = true →
      (reload_nameservers [f1, f2] st).nameservers = parse_resolv c1) ∧
    (∀ c2, (f1 = none ∨ ∃ c1, f1 = some c1 ∧ (parse_resolv c1).isEmpty = true) →
      f2 = some c2 → ¬ (parse_resolv c2).isEmpty = true →
      (reload_nameservers [f1, f2] st).nameservers = parse_resolv c2) := by
  constructor
  · rintro c1 rfl hne
    simp [reload_nameservers, hne]
  · rintro c2 h rfl hne
    rcases h with rfl | ⟨c1, rfl, hempty⟩
    · simp [reload_nameservers, hne]
    · simp [reload_nameservers, hempty, hne]

/-- Witness for C6: the first file has two `nameserver` lines; the second
candidate is ignored and the tokens are stored in file order. -/
theorem C6_reload_nameservers_first_match_witness :
    (reload_nameservers
      [some "nameserver 1.1.1.1\nnameserver 8.8.8.8\n", some "nameserver 9.9.9.9\n"]
      ⟨20, 1, [], []⟩).nameservers = ["1.1.1.1", "8.8.8.8"] := by
  have h := (C6_reload_nameservers_first_match
      (some "nameserver 1.1.1.1\nnameserver 8.8.8.8\n") (some "nameserver 9.9.9.9\n")
      ⟨20, 1, [], []⟩).1 "nameserver 1.1.1.1\nnameserver 8.8.8.8\n" rfl (by decide)
  rw [h]
  decide

/-- C7 counterexample: with both candidate files unreadable, a previously
stored nameserver list survives the reload — the stored sequence is *not*
empty afterwards, contradicting the claim. -/
theorem C7_counterexample :
    (reload_nameservers [none, none] ⟨20, 1, [], ["9.9.9.9"]⟩).nameservers ≠ [] := by
  decide

/-- C7 amended: when no candidate file is readable or none yields a
nameserver line, the reload leaves the stored nameservers unchanged (hence
still empty when they were empty, as at startup). -/
theorem C7_amended_reload_nameservers_no_match (f1 f2 : Option String) (st : AppState)
    (h1 : ∀ c, f1 = some c → (parse_resolv c).isEmpty = true)
    (h2 : ∀ c, f2 = some c → (parse_resolv c).isEmpty = true) :
    (reload_nameservers [f1, f2] st).nameservers = st.nameservers := by
  cases f1 with
  | none =>
      cases f2 with
      | none => rfl
      | some c2 => simp [reload_nameservers, h2 c2 rfl]
  | some c1 =>
      cases f2 with
      | none => simp [reload_nameservers, h1 c1 rfl]
      | some c2 => simp [reload_nameservers, h1 c1 rfl, h2 c2 rfl]

/-- Witness for C7 amended: both files unreadable at startup leave the
(initially empty) nameserver list empty. -/
theorem C7_amended_reload_nameservers_no_match_witness :
    (reload_nameservers [none, none] ⟨20, 1, [], []⟩).nameservers = [] := by
  have h := C7_amended_reload_nameservers_no_match none none ⟨20, 1, [], []⟩
    (by rintro c ⟨⟩) (by rintro c ⟨⟩)
  exact h

/-! ## C8: `format_mac` round-trip machinery -/

theorem splitOnChar_cons_of_mem (sep : Char) (g xs : List Char) (hg : sep ∉ g)
    (h : List Char) (t : List (List Char)) (heq : splitOnChar sep xs = h :: t) :
    splitOnChar sep (g ++ xs) = (g ++ h) :: t := by
  induction g with
  | nil => simpa using heq
  | cons c cs ih =>
      have hc : c ≠ sep := fun hcs => hg (hcs ▸ List.mem_cons_self c cs)
      have hcs : sep ∉ cs := fun hm => hg (List.mem_cons_of_mem c hm)
      simp only [List.cons_append, splitOnChar, if_neg hc]
      rw [List.append_eq, ih hcs]

theorem splitOnChar_joinSep (sep : Char) (gs : List (List Char)) (hne : gs ≠ [])
    (hsep : ∀ g ∈ gs, sep ∉ g) :
    splitOnChar sep (joinSep [sep] gs) = gs := by
  induction gs with
  | nil => exact absurd rfl hne
  | cons g rest ih =>
      cases rest with
      | nil =>
          have : splitOnChar sep (g ++ []) = (g ++ []) :: [] :=
            splitOnChar_cons_of_mem sep g [] (hsep g (by simp)) [] [] rfl
          simpa [joinSep] using this
      | cons g2 rest2 =>
          have hrest : splitOnChar sep (joinSep [sep] (g2 :: rest2)) = g2 :: rest2 :=
            ih (by simp) (fun x hx => hsep x (List.mem_cons_of_mem g hx))
          have hstep : splitOnChar sep (sep :: joinSep [sep] (g2 :: rest2)) =
              [] :: g2 :: rest2 := by
            simp [splitOnChar, hrest]
          have := splitOnChar_cons_of_mem sep g (sep :: joinSep [sep] (g2 :: rest2))
            (hsep g (by simp)) [] (g2 :: rest2) hstep
          simpa [joinSep] using this

theorem hexDigitU_facts (d : Nat) (hd : d < 16) :
    hexVal (hexDigitU d) = some d ∧ isUpperHexDigit (hexDigitU d) = true ∧
    hexDigitU d ≠ ':' := by
  interval_cases d <;> refine ⟨by decide, by decide, by decide⟩

theorem hexFixedU_two (b : Nat) (hb : b < 256) :
    hexFixedU 2 b = [hexDigitU (b / 16), hexDigitU (b % 16)] := by
  have h16 : b / 16 < 16 := by omega
  have : List.range 2 = [0, 1] := rfl
  simp [hexFixedU, this, Nat.mod_eq_of_lt h16]

theorem parseHexByte_hexFixedU (b : Nat) (hb : b < 256) :
    parseHexByte (hexFixedU 2 b) = some b := by
  rw [hexFixedU_two b hb]
  have h1 := (hexDigitU_facts (b / 16) (by omega)).1
  have h2 := (hexDigitU_facts (b % 16) (by omega)).1
  simp only [parseHexByte, parseHexGo, h1, h2]
  have hacc : (0 * 16 + b / 16) * 16 + b % 16 = b := by omega
  rw [hacc, if_pos hb]

theorem parseGroups_hexFixedU (bytes : List Nat) (hb : ∀ b ∈ bytes, b < 256) :
    parseGroups (bytes.map fun b => hexFixedU 2 b) = some bytes := by
  induction bytes with
  | nil => rfl
  | cons b rest ih =>
      have hb0 : b < 256 := hb b (by simp)
      have hrest := ih fun x hx => hb x (List.mem_cons_of_mem b hx)
      simp only [List.map_cons, parseGroups, parseHexByte_hexFixedU b hb0, hrest]

theorem mem_joinSep (sep : List Char) (gs : List (List Char)) (c : Char)
    (hc : c ∈ joinSep sep gs) : c ∈ sep ∨ ∃ g ∈ gs, c ∈ g := by
  induction gs with
  | nil => simp [joinSep] at hc
  | cons g rest ih =>
      cases rest with
      | nil =>
          right
          exact ⟨g, by simp, by simpa [joinSep] using hc⟩
      | cons g2 rest2 =>
          simp only [joinSep, List.append_assoc, List.mem_append] at hc
          rcases hc with hg | hsep | hrest
          · exact Or.inr ⟨g, by simp, hg⟩
          · exact Or.inl hsep
          · rcases ih hrest with h | ⟨x, hx, hcx⟩
            · exact Or.inl h
            · exact Or.inr ⟨x, List.mem_cons_of_mem g hx, hcx⟩

theorem mem_hexFixedU (w v : Nat) (c : Char) (hc : c ∈ hexFixedU w v) :
    ∃ d, d < 16 ∧ c = hexDigitU d := by
  simp only [hexFixedU, List.mem_map] at hc
  obtain ⟨i, _, rfl⟩ := hc
  exact ⟨v / 16 ^ i % 16, Nat.mod_lt _ (by norm_num), rfl⟩

/-- C8: `format_mac` renders each byte as two uppercase hex digits joined by
`":"`, and parsing each colon-separated group of the output back as a
hexadecimal byte recovers the input: `format_mac` is a left-inverse of
hex-byte parsing on 6-byte inputs. -/
theorem C8_format_mac_left_inverse (bytes : List Nat) (hlen : bytes.length = 6)
    (hb : ∀ b ∈ bytes, b < 256) :
    parse_mac (format_mac bytes) = some bytes ∧
    ∀ c ∈ (format_mac bytes).data, c = ':' ∨ isUpperHexDigit c = true := by
  have hne : (bytes.map fun b => hexFixedU 2 b) ≠ [] := by
    cases bytes with
    | nil => simp at hlen
    | cons b rest => simp
  have hnosep : ∀ g ∈ bytes.map fun b => hexFixedU 2 b, ':' ∉ g := by
    intro g hg hmem
    simp only [List.mem_map] at hg
    obtain ⟨b, _, rfl⟩ := hg
    obtain ⟨d, hd, hcd⟩ := mem_hexFixedU 2 b ':' hmem
    exact (hexDigitU_facts d hd).2.2 hcd.symm
  constructor
  · show parseGroups (splitOnChar ':' (joinSep [':'] (bytes.map fun b => hexFixedU 2 b))) =
      some bytes
    rw [splitOnChar_joinSep ':' _ hne hnosep, parseGroups_hexFixedU bytes hb]
  · intro c hc
    rcases mem_joinSep [':'] _ c hc with hsep | ⟨g, hg, hcg⟩
    · left
      simpa using hsep
    · right
      simp only [List.mem_map] at hg
      obtain ⟨b, _, rfl⟩ := hg
      obtain ⟨d, hd, rfl⟩ := mem_hexFixedU 2 b c hcg
      exact (hexDigitU_facts d hd).2.1

/-- Witness for C8: the six bytes `AA:BB:CC:DD:EE:FF` round-trip. -/
theorem C8_format_mac_left_inverse_witness :
    parse_mac (format_mac [170, 187, 204, 221, 238, 255]) =
      some [170, 187, 204, 221, 238, 255] :=
  (C8_format_mac_left_inverse [170, 187, 204, 221, 238, 255] rfl (by decide)).1

/-! ## C5: `connection_uuid` layout -/

theorem siphash13_lt (msg : List Nat) : siphash13 msg < 2 ^ 64 := by
  unfold siphash13
  rcases h : sipBlocks msg with ⟨ws, tail⟩
  simp only [h]
  exact Nat.mod_lt _ (by norm_num)

theorem hexDigitL_facts (d : Nat) (hd : d < 16) :
    isLowerHexDigit (hexDigitL d) = true ∧ hexDigitL d ≠ '-' := by
  interval_cases d <;> exact ⟨by decide, by decide⟩

theorem hexFixedL_length (w v : Nat) : (hexFixedL w v).length = w := by
  simp [hexFixedL]

theorem mem_hexFixedL (w v : Nat) (c : Char) (hc : c ∈ hexFixedL w v) :
    ∃ d, d < 16 ∧ c = hexDigitL d := by
  simp only [hexFixedL, List.mem_map] at hc
  obtain ⟨i, _, rfl⟩ := hc
  exact ⟨v / 16 ^ i % 16, Nat.mod_lt _ (by norm_num), rfl⟩

theorem leWord_upper_six (x : Nat) (hx : x < 2 ^ 64) :
    leWord ([x / 256 ^ 2 % 256, x / 256 ^ 3 % 256, x / 256 ^ 4 % 256,
      x / 256 ^ 5 % 256, x / 256 ^ 6 % 256, x / 256 ^ 7 % 256] ++ [0, 0]) =
      x / 2 ^ 16 := by
  simp only [leWord, List.cons_append, List.nil_append, List.foldr_cons, List.foldr_nil]
  norm_num
  omega

/-- C5 counterexample: for the interface name `"eth0"` the generated UUID is
36 characters whose last four hex digits — the low 16 bits of the final
group — are not `0000`; the claim's "low 16 bits of the final group are
zero" fails. -/
theorem C5_counterexample :
    (connection_uuid "eth0").data.length = 36 ∧
    (connection_uuid "eth0").data.drop 32 ≠ ['0', '0', '0', '0'] := by
  constructor
  · decide
  · decide

theorem dash_not_mem_hexFixedL (w v : Nat) : '-' ∉ hexFixedL w v := by
  intro hm
  obtain ⟨d, hd, hcd⟩ := mem_hexFixedL w v '-' hm
  exact (hexDigitL_facts d hd).2 hcd.symm

theorem uuidShape_groups (v1 v2 v3 v4 v5 : Nat) :
    uuidShape (joinSep ['-'] [hexFixedL 8 v1, hexFixedL 4 v2, hexFixedL 4 v3,
      hexFixedL 4 v4, hexFixedL 12 v5]) = true := by
  have hns : ∀ g ∈ [hexFixedL 8 v1, hexFixedL 4 v2, hexFixedL 4 v3,
      hexFixedL 4 v4, hexFixedL 12 v5], '-' ∉ g := by
    intro g hg
    simp only [List.mem_cons, List.not_mem_nil, or_false] at hg
    rcases hg with rfl | rfl | rfl | rfl | rfl <;> exact dash_not_mem_hexFixedL _ _
  have hsplit := splitOnChar_joinSep '-' _ (by simp) hns
  simp only [uuidShape, hsplit]
  simp only [hexFixedL_length, beq_self_eq_true, Bool.true_and, List.all_eq_true]
  intro c hc
  simp only [List.mem_append] at hc
  have hex : ∃ d, d < 16 ∧ c = hexDigitL d := by
    rcases hc with (((h | h) | h) | h) | h <;> exact mem_hexFixedL _ _ _ h
  obtain ⟨d, hd, rfl⟩ := hex
  exact (hexDigitL_facts d hd).1

theorem joinSep_dash_drop_24 (a b c d e : List Char) (ha : a.length = 8)
    (hb : b.length = 4) (hc : c.length = 4) (hd : d.length = 4) :
    (joinSep ['-'] [a, b, c, d, e]).drop 24 = e := by
  have hjoin : joinSep ['-'] [a, b, c, d, e] =
      (a ++ '-' :: (b ++ '-' :: (c ++ '-' :: (d ++ ['-'])))) ++ e := by
    simp [joinSep]
  have hlen : (a ++ '-' :: (b ++ '-' :: (c ++ '-' :: (d ++ ['-'])))).length = 24 := by
    simp [ha, hb, hc, hd]
  rw [hjoin, ← hlen, List.drop_left]

/-- C5 amended: `connection_uuid` is a pure function of the name (hence
deterministic and stable across runs) with the canonical 8-4-4-4-12 lowercase
hexadecimal layout, whose final group is exactly the 12 hex digits of bits
16–63 of the second seeded hash — the two zero bytes padded by the `u64`
read are its *high* 16 bits, so the group carries 48 hash bits and its low
16 bits are not forced to zero. -/
theorem C5_amended_connection_uuid_layout (name : String) :
    uuidShape (connection_uuid name).data = true ∧
    (connection_uuid name).data.drop 24 =
      hexFixedL 12 (seededHash "nmlinkd2" name / 2 ^ 16) ∧
    seededHash "nmlinkd2" name / 2 ^ 16 < 2 ^ 48 := by
  have h2lt : seededHash "nmlinkd2" name < 2 ^ 64 := siphash13_lt _
  have htail : ((toLeBytes8 (seededHash "nmlinkd" name) ++
      toLeBytes8 (seededHash "nmlinkd2" name)).drop 10).take 6 =
      [seededHash "nmlinkd2" name / 256 ^ 2 % 256,
       seededHash "nmlinkd2" name / 256 ^ 3 % 256,
       seededHash "nmlinkd2" name / 256 ^ 4 % 256,
       seededHash "nmlinkd2" name / 256 ^ 5 % 256,
       seededHash "nmlinkd2" name / 256 ^ 6 % 256,
       seededHash "nmlinkd2" name / 256 ^ 7 % 256] := rfl
  have hg5 : leWord (((toLeBytes8 (seededHash "nmlinkd" name) ++
      toLeBytes8 (seededHash "nmlinkd2" name)).drop 10).take 6 ++ [0, 0]) =
      seededHash "nmlinkd2" name / 2 ^ 16 := by
    rw [htail]
    exact leWord_upper_six _ h2lt
  have hdata : (connection_uuid name).data =
      joinSep ['-']
        [hexFixedL 8 (leWord ((toLeBytes8 (seededHash "nmlinkd" name) ++
            toLeBytes8 (seededHash "nmlinkd2" name)).take 4)),
         hexFixedL 4 (leWord (((toLeBytes8 (seededHash "nmlinkd" name) ++
            toLeBytes8 (seededHash "nmlinkd2" name)).drop 4).take 2)),
         hexFixedL 4 (leWord (((toLeBytes8 (seededHash "nmlinkd" name) ++
            toLeBytes8 (seededHash "nmlinkd2" name)).drop 6).take 2)),
         hexFixedL 4 (leWord (((toLeBytes8 (seededHash "nmlinkd" name) ++
            toLeBytes8 (seededHash "nmlinkd2" name)).drop 8).take 2)),
         hexFixedL 12 (leWord (((toLeBytes8 (seededHash "nmlinkd" name) ++
            toLeBytes8 (seededHash "nmlinkd2" name)).drop 10).take 6 ++ [0, 0]))] := rfl
  refine ⟨?_, ?_, ?_⟩
  · rw [hdata]
    exact uuidShape_groups _ _ _ _ _
  · rw [hdata, hg5]
    exact joinSep_dash_drop_24 _ _ _ _ _ (hexFixedL_length 8 _) (hexFixedL_length 4 _)
      (hexFixedL_length 4 _) (hexFixedL_length 4 _)
  · have : seededHash "nmlinkd2" name / 2 ^ 16 < 2 ^ 64 / 2 ^ 16 + 1 := by omega
    omega

end Nmlinkd
